import Mathlib

/-!
Verification of the VitalCare AI session rate limiter and request-lifecycle
controller (src/app.py). Time is modelled in microseconds (the resolution of
Python's `datetime`); machine state is the Streamlit session state restricted
to the two rate-limiting attributes.
-/

namespace VitalCare

/-- Session state: `st.session_state.last_request_time` (a nullable timestamp,
microseconds since epoch) and `st.session_state.request_count`
(app.py lines 16-19). -/
structure SessionState where
  last_request_time : Option Nat
  request_count : Nat
  deriving Repr, DecidableEq

/-- Initial session state: `last_request_time = None`, `request_count = 0`
(app.py lines 16-19). -/
def initState : SessionState := ⟨none, 0⟩

/-- Python's `timedelta(minutes=1)` expressed in microseconds. -/
def windowUs : Nat := 60 * 1000000

/-- The request budget per window (app.py line 31: `request_count >= 8`). -/
def budget : Nat := 8

/-- The denial message of app.py line 32. -/
def rate_limit_msg : String :=
  "Rate limit reached. Please wait 1 minute before next analysis."

/-- The function `can_make_request` (app.py lines 21-34): reset the counter when
`last_request_time` is `None` or `now - last_request_time > timedelta(minutes=1)`,
then deny when `request_count >= 8`. Returns the updated session state together
with the `(bool, message)` pair the Python function returns. -/
def can_make_request (s : SessionState) (now : Nat) : SessionState × Bool × String :=
  let s' :=
    match s.last_request_time with
    | none => { s with request_count := 0 }
    | some t => if windowUs < now - t then { s with request_count := 0 } else s
  if budget ≤ s'.request_count then
    (s', false, rate_limit_msg)
  else
    (s', true, "")

/-- The function `update_request_tracker` (app.py lines 36-39): set `last_request_time = now`
and increment `request_count`. -/
def update_request_tracker (s : SessionState) (now : Nat) : SessionState :=
  { last_request_time := some now, request_count := s.request_count + 1 }

/-- One request attempt as the app performs it (app.py lines 162-175):
`can_make_request` first, then `update_request_tracker` only when allowed.
Returns the resulting session state and whether the attempt was allowed. -/
def request_step (s : SessionState) (now : Nat) : SessionState × Bool :=
  let c := can_make_request s now
  if c.2.1 then (update_request_tracker c.1 now, true) else (c.1, false)

/-- Run a sequence of request attempts at the given times, threading the
session state; returns the final state and the list of allow/deny answers. -/
def run_calls : SessionState → List Nat → SessionState × List Bool
  | s, [] => (s, [])
  | s, t :: ts =>
    let p := request_step s t
    let q := run_calls p.1 ts
    (q.1, p.2 :: q.2)

/-- Iteration of `update_request_tracker` over a list of request times. -/
def record_n (s : SessionState) (ts : List Nat) : SessionState :=
  ts.foldl update_request_tracker s

/-- Python's `timedelta.seconds` of a nonnegative duration given in microseconds:
whole seconds, normalized below one day. -/
def td_seconds (us : Nat) : Nat := us / 1000000 % 86400

/-- The wait-time display of app.py line 166:
`60 - (datetime.now() - st.session_state.last_request_time).seconds`.
The denied branch is only reachable with `last_request_time` set. -/
def remaining_seconds (s : SessionState) (now : Nat) : Nat :=
  match s.last_request_time with
  | some t => 60 - td_seconds (now - t)
  | none => 0

/-- The window has rolled over at time `now`: the reset condition of
app.py lines 26-27. -/
def window_rolled (s : SessionState) (now : Nat) : Prop :=
  match s.last_request_time with
  | none => True
  | some t => windowUs < now - t

/-- The list of times is nondecreasing, starting from `t0`. -/
def chain_le : Nat → List Nat → Prop
  | _, [] => True
  | t0, t :: ts => t0 ≤ t ∧ chain_le t ts

instance (s : SessionState) (now : Nat) : Decidable (window_rolled s now) := by
  unfold window_rolled
  cases s.last_request_time with
  | none => exact inferInstanceAs (Decidable True)
  | some t => exact inferInstanceAs (Decidable (windowUs < now - t))

/-! Outcome classification of the analysis flow (app.py lines 162-238). -/

/-- Terminal outcomes of one analysis attempt, following the error taxonomy
of the flow: denial by the limiter, success, or a classified failure. -/
inductive Outcome where
  | Denied (retry_after_seconds : Nat)
  | Succeeded (text : String)
  | FailedEmpty
  | FailedRateLimited
  | FailedSafety
  | FailedOther (msg : String)
  deriving Repr, DecidableEq

/-- The provider call's result as the controller sees it: a response whose
`text` attribute may be absent or empty, or a raised exception message. -/
inductive ModelResult where
  | ok (text : Option String)
  | err (msg : String)
  deriving Repr, DecidableEq

/-- Whether `p` occurs at the start of `l` (character lists). -/
def charsStartWith : List Char → List Char → Bool
  | [], _ => true
  | _ :: _, [] => false
  | a :: as, b :: bs => a == b && charsStartWith as bs

/-- Whether `p` occurs anywhere in `l`, the semantics of Python's
`in` on strings. -/
def charsHas (p : List Char) : List Char → Bool
  | [] => charsStartWith p []
  | b :: bs => charsStartWith p (b :: bs) || charsHas p bs

/-- Python's `pat in s` substring test. -/
def strContains (s pat : String) : Bool := charsHas pat.data s.data

/-- ASCII lowercasing of one character, as Python's `str.lower` acts on the
ASCII error messages matched here. -/
def charLower (c : Char) : Char :=
  if 65 ≤ c.toNat ∧ c.toNat ≤ 90 then Char.ofNat (c.toNat + 32) else c

/-- Python's `str.lower` on ASCII strings. -/
def strLower (s : String) : String := ⟨s.data.map charLower⟩

/-- The exception classifier of app.py lines 226-238: HTTP 429 or quota
markers first, then safety markers, otherwise a generic failure carrying
the message. -/
def classify_error (msg : String) : Outcome :=
  if strContains msg "429" || strContains (strLower msg) "quota" then
    .FailedRateLimited
  else if strContains (strLower msg) "safety" then
    .FailedSafety
  else
    .FailedOther msg

/-- The response classification of app.py lines 190-238: a response with
non-empty `text` succeeds (line 190), an absent or empty text falls to the
"No analysis generated" branch (line 223), and exceptions go through
`classify_error`. -/
def classify_response : ModelResult → Outcome
  | .ok none => .FailedEmpty
  | .ok (some t) => if t == "" then .FailedEmpty else .Succeeded t
  | .err m => classify_error m

/-- The result of one pass through the analysis flow: final session state,
outcome, and whether the external model was invoked. -/
structure AnalyzeResult where
  state : SessionState
  outcome : Outcome
  model_called : Bool
  deriving Repr, DecidableEq

/-- One pass through the analysis flow (app.py lines 162-238):
`can_make_request` first; on denial, show the wait time of line 166 and stop
without calling the model; on permission, `update_request_tracker`, invoke the
model, and classify its result. -/
def analyze (s : SessionState) (now : Nat) (r : ModelResult) : AnalyzeResult :=
  let c := can_make_request s now
  if c.2.1 then
    { state := update_request_tracker c.1 now
      outcome := classify_response r
      model_called := true }
  else
    { state := c.1
      outcome := .Denied (remaining_seconds c.1 now)
      model_called := false }

/-! Image intake (app.py lines 125-154, 181-185). -/

/-- The upload size limit of app.py line 128: `5 * 1024 * 1024` bytes. -/
def max_size : Nat := 5 * 1024 * 1024

/-- The size gate of app.py lines 130-132: `true` means the upload is
rejected as too large and processing stops. -/
def size_rejected (file_size : Nat) : Bool := decide (max_size < file_size)

/-- A decoded image as the code observes it through PIL: color mode string
and pixel dimensions. -/
structure PILImage where
  mode : String
  width : Nat
  height : Nat
  deriving Repr, DecidableEq

/-- PIL's `Image.convert("RGB")`, an external collaborator modelled at its
interface: the result is in RGB mode with the same pixel dimensions. -/
def convert_rgb (img : PILImage) : PILImage := { img with mode := "RGB" }

/-- The color-mode normalization of app.py lines 139-140 (repeated at
lines 184-185): convert to RGB exactly when the decoded mode differs. -/
def normalize_mode (img : PILImage) : PILImage :=
  if img.mode ≠ "RGB" then convert_rgb img else img

/-! Report formatter (app.py lines 199-211). -/

/-- The fixed disclaimer block of app.py lines 208-210. The first two lines
end in a trailing space in the source; this is preserved. -/
def DISCLAIMER : String :=
  "DISCLAIMER: This AI-generated analysis is for educational and informational purposes only. \nIt should not be used as a substitute for professional medical advice, diagnosis, or treatment. \nAlways consult qualified healthcare professionals for medical decisions."

/-- The f-string `report_content` (app.py lines 200-211): the downloadable report built
from the generation timestamp, the uploaded file's name, the pixel
dimensions, and the model's text. The size separator is U+00D7. -/
def report_content (gen_ts name : String) (w h : Nat) (text : String) : String :=
  "MEDICAL IMAGE ANALYSIS REPORT\nGenerated: " ++ gen_ts ++
  "\nImage: " ++ name ++
  "\nSize: " ++ toString w ++ " × " ++ toString h ++ " pixels\n\n" ++
  text ++ "\n\n---\n" ++ DISCLAIMER ++ "\n"

end VitalCare

namespace VitalCare

/- Basic step lemmas for the rate limiter. -/

/-- When the window has rolled over, an attempt is allowed and the state
becomes `⟨some now, 1⟩`. -/
theorem request_step_rolled (s : SessionState) (now : Nat)
    (h : window_rolled s now) :
    request_step s now = (⟨some now, 1⟩, true) := by
  unfold request_step can_make_request window_rolled at *
  cases hl : s.last_request_time with
  | none =>
    simp [hl, budget, update_request_tracker]
  | some t =>
    have h' : windowUs < now - t := by
      rw [hl] at h
      exact h
    simp [hl, h', budget, update_request_tracker]

/-- When the window has not rolled over and the budget is not exhausted, an
attempt is allowed and the counter increments. -/
theorem request_step_allowed (s : SessionState) (now t0 : Nat)
    (hl : s.last_request_time = some t0) (hg : now - t0 ≤ windowUs)
    (hc : s.request_count < budget) :
    request_step s now = (⟨some now, s.request_count + 1⟩, true) := by
  unfold request_step can_make_request
  rw [hl]
  simp [Nat.not_lt.mpr hg, Nat.not_le.mpr hc, update_request_tracker]

/-- When the window has not rolled over and the budget is exhausted, an
attempt is denied and the state is unchanged. -/
theorem request_step_denied (s : SessionState) (now t0 : Nat)
    (hl : s.last_request_time = some t0) (hg : now - t0 ≤ windowUs)
    (hc : budget ≤ s.request_count) :
    request_step s now = (s, false) := by
  unfold request_step can_make_request
  rw [hl]
  simp [Nat.not_lt.mpr hg, hc]

/-- An allowed attempt always leaves the state at `⟨some now, c⟩` for some
positive `c`. -/
theorem request_step_true_state (s : SessionState) (now : Nat)
    (h : (request_step s now).2 = true) :
    ∃ c, 1 ≤ c ∧ (request_step s now).1 = ⟨some now, c⟩ := by
  cases hl : s.last_request_time with
  | none =>
    have hr := request_step_rolled s now (by simp [window_rolled, hl])
    exact ⟨1, le_refl 1, by rw [hr]⟩
  | some t =>
    by_cases hw : windowUs < now - t
    · have hr := request_step_rolled s now (by simp [window_rolled, hl, hw])
      exact ⟨1, le_refl 1, by rw [hr]⟩
    · by_cases hc : s.request_count < budget
      · have hr := request_step_allowed s now t hl (Nat.le_of_not_lt hw) hc
        exact ⟨s.request_count + 1, by omega, by rw [hr]⟩
      · have hd := request_step_denied s now t hl (Nat.le_of_not_lt hw) (Nat.le_of_not_lt hc)
        rw [hd] at h
        simp at h

/-- Unfolding equation for `run_calls` on a cons cell. -/
theorem run_calls_cons (s : SessionState) (t : Nat) (ts : List Nat) :
    run_calls s (t :: ts) =
      ((run_calls (request_step s t).1 ts).1,
        (request_step s t).2 :: (run_calls (request_step s t).1 ts).2) := rfl

/-- Running `run_calls` over an appended list runs the two halves in sequence. -/
theorem run_calls_append (l1 : List Nat) : ∀ (s : SessionState) (l2 : List Nat),
    run_calls s (l1 ++ l2) =
      ((run_calls (run_calls s l1).1 l2).1,
        (run_calls s l1).2 ++ (run_calls (run_calls s l1).1 l2).2) := by
  induction l1 with
  | nil => intro s l2; simp [run_calls]
  | cons t ts ih =>
    intro s l2
    simp only [List.cons_append, run_calls_cons, ih, List.cons_append]

/-- One answer per attempted call. -/
theorem run_calls_length (ts : List Nat) : ∀ s : SessionState,
    (run_calls s ts).2.length = ts.length := by
  induction ts with
  | nil => intro s; simp [run_calls]
  | cons t ts ih => intro s; simp [run_calls_cons, ih]

/-- From a recorded request at `t0` with `k` requests counted, a nondecreasing
sequence of calls all lying within `t0`'s window is entirely permitted as long
as the budget is not exceeded, and the counter advances by one per call. -/
theorem run_calls_all_allowed (ts : List Nat) : ∀ (t0 k B : Nat),
    chain_le t0 ts → (∀ t ∈ ts, t ≤ B) → B ≤ t0 + windowUs →
    k + ts.length ≤ budget →
    run_calls ⟨some t0, k⟩ ts =
      (⟨some (ts.getLastD t0), k + ts.length⟩, List.replicate ts.length true) := by
  induction ts with
  | nil => intro t0 k B _ _ _ _; simp [run_calls]
  | cons t ts ih =>
    intro t0 k B hchain hB hwin hk
    obtain ⟨h0t, hchain'⟩ := hchain
    have htB : t ≤ B := hB t (List.mem_cons_self t ts)
    have hstep : request_step ⟨some t0, k⟩ t = (⟨some t, k + 1⟩, true) := by
      have hg : t - t0 ≤ windowUs := by omega
      have hc : k < budget := by
        have := ts.length
        simp only [List.length_cons] at hk
        omega
      exact request_step_allowed ⟨some t0, k⟩ t t0 rfl hg hc
    have ihres := ih t (k + 1) B hchain' (fun u hu => hB u (List.mem_cons_of_mem t hu))
      (by omega) (by simp only [List.length_cons] at hk; omega)
    rw [run_calls_cons, hstep]
    simp only [ihres, List.getLastD_cons, List.length_cons, List.replicate_succ]
    have harith : k + 1 + ts.length = k + (ts.length + 1) := by omega
    rw [harith]

/-- If every answer of a within-window run starting from a recorded request
is `true`, the counter must have advanced by one per call. -/
theorem run_calls_all_true_count (ts : List Nat) : ∀ (t0 k B : Nat),
    chain_le t0 ts → (∀ t ∈ ts, t ≤ B) → B ≤ t0 + windowUs →
    (run_calls ⟨some t0, k⟩ ts).2 = List.replicate ts.length true →
    (run_calls ⟨some t0, k⟩ ts).1 = ⟨some (ts.getLastD t0), k + ts.length⟩ := by
  induction ts with
  | nil => intro t0 k B _ _ _ _; simp [run_calls]
  | cons t ts ih =>
    intro t0 k B hchain hB hwin hall
    obtain ⟨h0t, hchain'⟩ := hchain
    have htB : t ≤ B := hB t (List.mem_cons_self t ts)
    have hg : t - t0 ≤ windowUs := by omega
    by_cases hc : k < budget
    · have hstep : request_step ⟨some t0, k⟩ t = (⟨some t, k + 1⟩, true) :=
        request_step_allowed ⟨some t0, k⟩ t t0 rfl hg hc
      rw [run_calls_cons, hstep] at hall ⊢
      simp only [List.length_cons, List.replicate_succ, List.cons.injEq] at hall
      have ihres := ih t (k + 1) B hchain'
        (fun u hu => hB u (List.mem_cons_of_mem t hu)) (by omega) hall.2
      simp only [ihres, List.getLastD_cons, List.length_cons]
      have harith : k + 1 + ts.length = k + (ts.length + 1) := by omega
      rw [harith]
    · have hstep : request_step ⟨some t0, k⟩ t = (⟨some t0, k⟩, false) :=
        request_step_denied ⟨some t0, k⟩ t t0 rfl hg (Nat.le_of_not_lt hc)
      rw [run_calls_cons, hstep] at hall
      simp only [List.length_cons, List.replicate_succ, List.cons.injEq] at hall
      exact absurd hall.1 (by simp)

/-- Each attempt keeps the counter within the budget. -/
theorem request_step_count_le (s : SessionState) (now : Nat)
    (h : s.request_count ≤ budget) :
    (request_step s now).1.request_count ≤ budget := by
  unfold request_step can_make_request
  cases hl : s.last_request_time with
  | none => simp [budget, update_request_tracker]
  | some t =>
    by_cases hw : windowUs < now - t
    · simp [hw, budget, update_request_tracker]
    · by_cases hc : budget ≤ s.request_count
      · simpa [hw, hc] using h
      · simp [hw, hc, update_request_tracker]
        omega

/-- The budget bound is preserved along any run. -/
theorem run_calls_count_le (ts : List Nat) : ∀ s : SessionState,
    s.request_count ≤ budget → (run_calls s ts).1.request_count ≤ budget := by
  induction ts with
  | nil => intro s h; simpa [run_calls] using h
  | cons t ts ih =>
    intro s h
    rw [run_calls_cons]
    exact ih _ (request_step_count_le s t h)

/-- Anatomy of a denial: `can_make_request` answers `false` only when a
request is recorded within the window and the budget is exhausted, and then
it leaves the state untouched. -/
theorem can_make_request_false (s : SessionState) (now : Nat)
    (hd : (can_make_request s now).2.1 = false) :
    ∃ t, s.last_request_time = some t ∧ now - t ≤ windowUs ∧
      budget ≤ s.request_count ∧
      can_make_request s now = (s, false, rate_limit_msg) := by
  cases hl : s.last_request_time with
  | none =>
    unfold can_make_request at hd
    rw [hl] at hd
    simp [budget] at hd
  | some t =>
    by_cases hw : windowUs < now - t
    · unfold can_make_request at hd
      rw [hl] at hd
      simp [hw, budget] at hd
    · by_cases hc : budget ≤ s.request_count
      · refine ⟨t, rfl, Nat.le_of_not_lt hw, hc, ?_⟩
        unfold can_make_request
        rw [hl]
        simp [hw, hc]
      · unfold can_make_request at hd
        rw [hl] at hd
        simp [hw, hc] at hd

/-- Counting helper: `record_n` adds exactly the number of recorded calls. -/
theorem record_n_count (ts : List Nat) : ∀ s : SessionState,
    (record_n s ts).request_count = s.request_count + ts.length := by
  induction ts with
  | nil => intro s; simp [record_n]
  | cons t ts ih =>
    intro s
    have h : record_n s (t :: ts) = record_n (update_request_tracker s t) ts := rfl
    rw [h, ih]
    simp [update_request_tracker]
    omega

/-- Claim C2: if the window started at `t` and more than 60 seconds elapse
past `t` with no further calls, the counter resets: the next call to
`can_make_request` is allowed and, after `update_request_tracker`, the
request count equals 1. -/
theorem claim_C2_window_reset (s : SessionState) (now t : Nat)
    (hl : s.last_request_time = some t) (h : windowUs < now - t) :
    (can_make_request s now).2.1 = true ∧
      update_request_tracker (can_make_request s now).1 now =
        ⟨some now, 1⟩ := by
  unfold can_make_request
  rw [hl]
  simp [h, budget, update_request_tracker]

/-- Witness for claim C2 at a concrete state and time. -/
theorem claim_C2_witness :
    (can_make_request ⟨some 0, 8⟩ 60000001).2.1 = true ∧
      update_request_tracker (can_make_request ⟨some 0, 8⟩ 60000001).1 60000001 =
        ⟨some 60000001, 1⟩ :=
  claim_C2_window_reset ⟨some 0, 8⟩ 60000001 0 rfl (by decide)

/-- Claim C3: on every denied request the surfaced wait time equals 60 minus
the whole seconds elapsed between `now` and `last_request_time`. -/
theorem claim_C3_retry_after (s : SessionState) (now : Nat) (r : ModelResult)
    (hd : (can_make_request s now).2.1 = false) :
    ∃ t, s.last_request_time = some t ∧
      (analyze s now r).outcome = Outcome.Denied (60 - (now - t) / 1000000) := by
  obtain ⟨t, hl, hg, _, heq⟩ := can_make_request_false s now hd
  refine ⟨t, hl, ?_⟩
  unfold analyze
  rw [heq]
  simp [remaining_seconds, hl, td_seconds]
  have h60 : (now - t) / 1000000 ≤ 60 := by
    have hdiv : (now - t) / 1000000 ≤ windowUs / 1000000 :=
      Nat.div_le_div_right hg
    simpa [windowUs] using hdiv
  rw [Nat.mod_eq_of_lt (by omega)]

/-- Witness for claim C3: a session that exhausted its budget 5 seconds ago. -/
theorem claim_C3_witness :
    ∃ t, (SessionState.mk (some 0) 8).last_request_time = some t ∧
      (analyze ⟨some 0, 8⟩ 5000000 (ModelResult.ok none)).outcome =
        Outcome.Denied (60 - (5000000 - t) / 1000000) :=
  claim_C3_retry_after ⟨some 0, 8⟩ 5000000 (ModelResult.ok none) (by decide)

/-- Claim C4: `update_request_tracker` sets `last_request_time = now` and
increments `request_count` by exactly 1; iterating it N times increments the
count by exactly N. -/
theorem claim_C4_record_request (s : SessionState) (now : Nat) (ts : List Nat) :
    update_request_tracker s now = ⟨some now, s.request_count + 1⟩ ∧
      (record_n s ts).request_count = s.request_count + ts.length :=
  ⟨rfl, record_n_count ts s⟩

/-- Claim C5: a denied attempt makes no call to the external model and leaves
the session state unchanged. -/
theorem claim_C5_denied_no_side_effects (s : SessionState) (now : Nat)
    (r : ModelResult) (hd : (can_make_request s now).2.1 = false) :
    analyze s now r =
      ⟨s, Outcome.Denied (remaining_seconds s now), false⟩ := by
  obtain ⟨t, hl, hg, hc, heq⟩ := can_make_request_false s now hd
  unfold analyze
  rw [heq]
  simp

/-- Witness for claim C5 at a concrete exhausted session. -/
theorem claim_C5_witness :
    analyze ⟨some 0, 8⟩ 1000000 (ModelResult.ok (some "report")) =
      ⟨⟨some 0, 8⟩, Outcome.Denied (remaining_seconds ⟨some 0, 8⟩ 1000000),
        false⟩ :=
  claim_C5_denied_no_side_effects ⟨some 0, 8⟩ 1000000
    (ModelResult.ok (some "report")) (by decide)

/-- Claim C7: the intake size gate fails exactly when the byte length exceeds
5 MiB; a 6 MiB payload is rejected and a 4 MiB one passes. -/
theorem claim_C7_size_gate :
    (∀ n : Nat, size_rejected n = true ↔ 5 * 1024 * 1024 < n) ∧
      size_rejected (6 * 1024 * 1024) = true ∧
      size_rejected (4 * 1024 * 1024) = false := by
  refine ⟨?_, by decide, by decide⟩
  intro n
  simp [size_rejected, max_size]

/-- Claim C8: mode normalization always yields RGB, preserves the pixel
dimensions, and passes an RGB image through unchanged. -/
theorem claim_C8_mode_normalization (img : PILImage) :
    (normalize_mode img).mode = "RGB" ∧
      (normalize_mode img).width = img.width ∧
      (normalize_mode img).height = img.height ∧
      (img.mode = "RGB" → normalize_mode img = img) := by
  unfold normalize_mode convert_rgb
  by_cases h : img.mode = "RGB"
  · simp [h]
  · simp [h]

/-- Witness for claim C8: a grayscale image is converted, an RGB one is
untouched. -/
theorem claim_C8_witness :
    (normalize_mode ⟨"L", 64, 48⟩).mode = "RGB" ∧
      (normalize_mode ⟨"L", 64, 48⟩).width = 64 ∧
      normalize_mode ⟨"RGB", 10, 20⟩ = ⟨"RGB", 10, 20⟩ :=
  ⟨(claim_C8_mode_normalization ⟨"L", 64, 48⟩).1,
    (claim_C8_mode_normalization ⟨"L", 64, 48⟩).2.1,
    (claim_C8_mode_normalization ⟨"RGB", 10, 20⟩).2.2.2 rfl⟩

/-- Claim C1: within a single 60-second window the budget is eight: from a
state whose window rolls over at the first call, nine nondecreasing calls in
the window are answered with eight `true`s then `false`; and from every
session state, if the first eight calls of the window were all permitted,
the ninth call in the same window is denied. -/
theorem claim_C1_budget_per_window (s : SessionState)
    (t1 t2 t3 t4 t5 t6 t7 t8 t9 : Nat)
    (h12 : t1 ≤ t2) (h23 : t2 ≤ t3) (h34 : t3 ≤ t4) (h45 : t4 ≤ t5)
    (h56 : t5 ≤ t6) (h67 : t6 ≤ t7) (h78 : t7 ≤ t8) (h89 : t8 ≤ t9)
    (hwin : t9 ≤ t1 + windowUs) :
    (window_rolled s t1 →
      (run_calls s [t1, t2, t3, t4, t5, t6, t7, t8, t9]).2 =
        [true, true, true, true, true, true, true, true, false]) ∧
      ((run_calls s [t1, t2, t3, t4, t5, t6, t7, t8]).2 =
          List.replicate 8 true →
        (run_calls s [t1, t2, t3, t4, t5, t6, t7, t8, t9]).2 =
          [true, true, true, true, true, true, true, true, false]) := by
  have hchain : chain_le t1 [t2, t3, t4, t5, t6, t7, t8] :=
    ⟨h12, h23, h34, h45, h56, h67, h78, trivial⟩
  have hmem : ∀ u ∈ [t2, t3, t4, t5, t6, t7, t8], u ≤ t9 := by
    intro u hu
    simp only [List.mem_cons, List.not_mem_nil, or_false] at hu
    rcases hu with rfl | rfl | rfl | rfl | rfl | rfl | rfl <;> omega
  have hg9 : t9 - t8 ≤ windowUs := by omega
  have elist : ([t2, t3, t4, t5, t6, t7, t8] ++ [t9] : List Nat) =
      [t2, t3, t4, t5, t6, t7, t8, t9] := rfl
  constructor
  · intro hroll
    have hstep1 := request_step_rolled s t1 hroll
    have hmid := run_calls_all_allowed [t2, t3, t4, t5, t6, t7, t8] t1 1 t9
      hchain hmem hwin (by simp [budget])
    have hmid' : run_calls (⟨some t1, 1⟩ : SessionState)
        [t2, t3, t4, t5, t6, t7, t8] =
        (⟨some t8, 8⟩, List.replicate 7 true) := by
      rw [hmid]
      rfl
    have hstep9 : request_step ⟨some t8, 8⟩ t9 = (⟨some t8, 8⟩, false) :=
      request_step_denied ⟨some t8, 8⟩ t9 t8 rfl hg9 (by simp [budget])
    have e3 : run_calls (⟨some t8, 8⟩ : SessionState) [t9] =
        (⟨some t8, 8⟩, [false]) := by
      rw [run_calls_cons, hstep9]
      simp [run_calls]
    have e1 : run_calls s [t1, t2, t3, t4, t5, t6, t7, t8, t9] =
        ((run_calls (⟨some t1, 1⟩ : SessionState)
            [t2, t3, t4, t5, t6, t7, t8, t9]).1,
          true :: (run_calls (⟨some t1, 1⟩ : SessionState)
            [t2, t3, t4, t5, t6, t7, t8, t9]).2) := by
      rw [run_calls_cons, hstep1]
    rw [e1, ← elist, run_calls_append, hmid', e3]
    rfl
  · intro h8
    have e0 : (run_calls s [t1, t2, t3, t4, t5, t6, t7, t8]).2 =
        (request_step s t1).2 ::
          (run_calls (request_step s t1).1 [t2, t3, t4, t5, t6, t7, t8]).2 := by
      rw [run_calls_cons]
    rw [e0, show List.replicate 8 true = true :: List.replicate 7 true from rfl]
      at h8
    simp only [List.cons.injEq] at h8
    obtain ⟨hfirst, hrest⟩ := h8
    obtain ⟨c, hc1, hstate1⟩ := request_step_true_state s t1 hfirst
    rw [hstate1] at hrest
    have hfinal := run_calls_all_true_count [t2, t3, t4, t5, t6, t7, t8] t1 c
      t9 hchain hmem hwin hrest
    have hfinal' : (run_calls (⟨some t1, c⟩ : SessionState)
        [t2, t3, t4, t5, t6, t7, t8]).1 = ⟨some t8, c + 7⟩ := by
      rw [hfinal]
      rfl
    have hstep9 : request_step ⟨some t8, c + 7⟩ t9 =
        (⟨some t8, c + 7⟩, false) :=
      request_step_denied ⟨some t8, c + 7⟩ t9 t8 rfl hg9
        (by simp only [budget]; omega)
    have e3 : run_calls (⟨some t8, c + 7⟩ : SessionState) [t9] =
        (⟨some t8, c + 7⟩, [false]) := by
      rw [run_calls_cons, hstep9]
      simp [run_calls]
    have e1 : run_calls s [t1, t2, t3, t4, t5, t6, t7, t8, t9] =
        ((run_calls (request_step s t1).1
            [t2, t3, t4, t5, t6, t7, t8, t9]).1,
          (request_step s t1).2 :: (run_calls (request_step s t1).1
            [t2, t3, t4, t5, t6, t7, t8, t9]).2) := by
      rw [run_calls_cons]
    rw [e1, hfirst, hstate1, ← elist, run_calls_append, hrest, hfinal', e3]
    rfl

/-- Witness for claim C1: nine immediate calls from a fresh session. -/
theorem claim_C1_witness :
    (run_calls ⟨none, 0⟩ [0, 0, 0, 0, 0, 0, 0, 0, 0]).2 =
      [true, true, true, true, true, true, true, true, false] :=
  (claim_C1_budget_per_window ⟨none, 0⟩ 0 0 0 0 0 0 0 0 0
    (le_refl 0) (le_refl 0) (le_refl 0) (le_refl 0) (le_refl 0) (le_refl 0)
    (le_refl 0) (le_refl 0) (Nat.zero_le _)).1 trivial

/-- Claim C6: the controller classifies every model-call outcome: absent or
empty response text yields `FailedEmpty`; an error message with an HTTP 429 or
quota marker yields `FailedRateLimited`; otherwise a safety marker yields
`FailedSafety`; any other error yields `FailedOther` with the message;
non-empty text yields `Succeeded`. -/
theorem claim_C6_outcome_classification (t msg : String) :
    classify_response (ModelResult.ok none) = Outcome.FailedEmpty ∧
      classify_response (ModelResult.ok (some "")) = Outcome.FailedEmpty ∧
      (t ≠ "" → classify_response (ModelResult.ok (some t)) =
        Outcome.Succeeded t) ∧
      ((strContains msg "429" = true ∨
          strContains (strLower msg) "quota" = true) →
        classify_response (ModelResult.err msg) = Outcome.FailedRateLimited) ∧
      (strContains msg "429" = false → strContains (strLower msg) "quota" = false →
        strContains (strLower msg) "safety" = true →
        classify_response (ModelResult.err msg) = Outcome.FailedSafety) ∧
      (strContains msg "429" = false → strContains (strLower msg) "quota" = false →
        strContains (strLower msg) "safety" = false →
        classify_response (ModelResult.err msg) = Outcome.FailedOther msg) := by
  refine ⟨rfl, rfl, ?_, ?_, ?_, ?_⟩
  · intro ht
    simp [classify_response, ht]
  · intro h429
    rcases h429 with h | h <;> simp [classify_response, classify_error, h]
  · intro h1 h2 h3
    simp [classify_response, classify_error, h1, h2, h3]
  · intro h1 h2 h3
    simp [classify_response, classify_error, h1, h2, h3]

/-- Witness for claim C6 across the five classification branches. -/
theorem claim_C6_witness :
    classify_response (ModelResult.ok (some "X-ray")) =
        Outcome.Succeeded "X-ray" ∧
      classify_response (ModelResult.err "HTTP 429 returned") =
        Outcome.FailedRateLimited ∧
      classify_response (ModelResult.err "Quota exhausted") =
        Outcome.FailedRateLimited ∧
      classify_response (ModelResult.err "blocked by SAFETY filter") =
        Outcome.FailedSafety ∧
      classify_response (ModelResult.err "connection reset") =
        Outcome.FailedOther "connection reset" :=
  ⟨(claim_C6_outcome_classification "X-ray" "").2.2.1 (by decide),
    (claim_C6_outcome_classification "" "HTTP 429 returned").2.2.2.1
      (Or.inl (by decide)),
    (claim_C6_outcome_classification "" "Quota exhausted").2.2.2.1
      (Or.inr (by decide)),
    (claim_C6_outcome_classification "" "blocked by SAFETY filter").2.2.2.2.1
      (by decide) (by decide) (by decide),
    (claim_C6_outcome_classification "" "connection reset").2.2.2.2.2
      (by decide) (by decide) (by decide)⟩

/-- Claim C9: the report contains the analysis text verbatim and the fixed
disclaimer block verbatim, and the formatter is deterministic in its inputs. -/
theorem claim_C9_report_formatter (gen_ts name : String) (w h : Nat)
    (text : String) :
    (∃ p q : String,
        report_content gen_ts name w h text = p ++ (text ++ q)) ∧
      (∃ p q : String,
        report_content gen_ts name w h text = p ++ (DISCLAIMER ++ q)) ∧
      (∀ gen_ts2 name2 w2 h2 text2, gen_ts = gen_ts2 → name = name2 →
        w = w2 → h = h2 → text = text2 →
        report_content gen_ts name w h text =
          report_content gen_ts2 name2 w2 h2 text2) := by
  refine ⟨?_, ?_, ?_⟩
  · refine ⟨"MEDICAL IMAGE ANALYSIS REPORT\nGenerated: " ++ gen_ts ++
      "\nImage: " ++ name ++ "\nSize: " ++ toString w ++ " × " ++
      toString h ++ " pixels\n\n", "\n\n---\n" ++ DISCLAIMER ++ "\n", ?_⟩
    simp [report_content, String.append_assoc]
  · refine ⟨"MEDICAL IMAGE ANALYSIS REPORT\nGenerated: " ++ gen_ts ++
      "\nImage: " ++ name ++ "\nSize: " ++ toString w ++ " × " ++
      toString h ++ " pixels\n\n" ++ text ++ "\n\n---\n", "\n", ?_⟩
    simp [report_content, String.append_assoc]
  · intro gen_ts2 name2 w2 h2 text2 e1 e2 e3 e4 e5
    rw [e1, e2, e3, e4, e5]

/-- Witness for claim C9 at concrete formatter inputs. -/
theorem claim_C9_witness :
    (∃ p q : String,
        report_content "2025-01-01 00:00:00" "scan.png" 100 100 "X-ray" =
          p ++ ("X-ray" ++ q)) ∧
      report_content "2025-01-01 00:00:00" "scan.png" 100 100 "X-ray" =
        report_content "2025-01-01 00:00:00" "scan.png" 100 100 "X-ray" :=
  ⟨(claim_C9_report_formatter "2025-01-01 00:00:00" "scan.png" 100 100
      "X-ray").1,
    (claim_C9_report_formatter "2025-01-01 00:00:00" "scan.png" 100 100
      "X-ray").2.2 "2025-01-01 00:00:00" "scan.png" 100 100 "X-ray"
      rfl rfl rfl rfl rfl⟩

/-- Claim C10: under the check-then-record step relation, every session state
reachable from the initial state keeps `request_count ≤ 8` (it is a `Nat`, so
nonnegative), and the budget itself is reached by eight immediate calls. -/
theorem claim_C10_budget_invariant :
    (∀ ts : List Nat, (run_calls initState ts).1.request_count ≤ budget) ∧
      (run_calls initState [0, 0, 0, 0, 0, 0, 0, 0]).1.request_count = budget := by
  refine ⟨fun ts => run_calls_count_le ts initState (by simp [initState, budget]), ?_⟩
  decide

end VitalCare
